import Mathlib

/-!
# Verification of the Twilio / Phonic media-stream bridge

This file gives a shallow embedding of `simple_twilio_example.py`:

* the shared session state (`shared_state` dictionary),
* the speech-service inbound pump (`process_phonic_messages`),
* the telephony inbound pump (`process_twilio_messages`) together with its
  receive loop and its base64 handling,
* the connection coordinator (`websocket_endpoint`).

Conventions of the embedding:

* Python truthiness of the `twilio_stream_sid` entry (the source guards
  with bare `if shared_state["twilio_stream_sid"]` / `if not ...`) is
  modelled by `strTruthy`: `None` and the empty string are falsy.
* Exceptions that the source does not catch are modelled with `Except`:
  the `error` constructor carries the state at the moment the exception
  escapes the pump.
* `logger.info` / `logger.error` calls are modelled as events appended to
  an explicit log trace.
* `base64.b64decode` / re-encoding are modelled by executable functions on
  canonical RFC 4648 base64 text; a non-decodable payload yields `none`,
  matching the uncaught `binascii.Error` of the source.
* `np.frombuffer(audio_bytes, dtype=np.uint8)` is the identity on the
  underlying bytes, so the audio submitted to the speech-service client is
  represented directly by the decoded byte list.
-/

namespace TwilioBridge

/-- Shared per-connection session state: the `shared_state` dictionary,
initialised to `twilio_stream_sid = None`. -/
structure SharedState where
  twilio_stream_sid : Option String
deriving DecidableEq

/-- Python truthiness of the stream-sid slot: `None` and `""` are falsy,
every non-empty string is truthy. -/
def strTruthy : Option String → Bool
  | none => false
  | some s => s != ""

/-- Service messages produced by the speech-service peer, keyed by their
`type` field.  `audio_chunk` carries the `audio` payload (a base64 string)
and the optional incremental `text`; `unknown` stands for every
unrecognized or absent `type`. -/
inductive PhonicMessage where
  | audio_chunk (audio : String) (text : Option String)
  | audio_finished
  | input_text (text : String)
  | interrupted_response
  | unknown
deriving DecidableEq

/-- Log events emitted by the speech-service pump: `assistant s` models
the completed-utterance log line for the buffered transcript `s`,
`user s` the `input_text` log line, `interrupted` the barge-in line. -/
inductive LogEvent where
  | assistant (s : String)
  | user (s : String)
  | interrupted
deriving DecidableEq

/-- Outbound JSON envelopes sent to the telephony peer: the `media`
envelope carrying a stream sid and a base64 payload, and the `clear`
control envelope carrying a stream sid. -/
inductive TwilioOut where
  | media (streamSid : String) (payload : String)
  | clear (streamSid : String)
deriving DecidableEq

/-- State of the speech-service inbound pump: the local `text_buffer`,
the shared session state, the envelopes already sent to the telephony
peer and the log trace, both in emission order. -/
structure PhonicPumpState where
  text_buffer : String
  shared : SharedState
  outbound : List TwilioOut
  logs : List LogEvent
deriving DecidableEq

/-- Does the accumulated buffer contain sentence-ending punctuation?
The source tests membership of each character of the literal string
of punctuation marks in the buffer. -/
def containsSentencePunc (s : String) : Bool :=
  [('.' : Char), '!', '?'].any fun p => s.toList.contains p

/-- Text handling of an `audio_chunk` message: the walrus guard
`if text := message.get("text")` only fires for a present, non-empty
fragment; the fragment is appended and, when the buffer now contains
sentence punctuation, the buffer is logged and cleared. -/
def appendFragment (st : PhonicPumpState) (text : Option String) : PhonicPumpState :=
  match text with
  | some t =>
      if t != "" then
        if containsSentencePunc (st.text_buffer ++ t) then
          { st with text_buffer := "",
                    logs := st.logs ++ [LogEvent.assistant (st.text_buffer ++ t)] }
        else
          { st with text_buffer := st.text_buffer ++ t }
      else st
  | none => st

/-- Audio handling of an `audio_chunk` message: when the shared stream
sid is truthy, wrap the (still base64) audio in a `media` envelope and
send it; otherwise the chunk is dropped. -/
def forwardAudio (st : PhonicPumpState) (audio : String) : PhonicPumpState :=
  match st.shared.twilio_stream_sid with
  | some sid =>
      if sid != "" then
        { st with outbound := st.outbound ++ [TwilioOut.media sid audio] }
      else st
  | none => st

/-- Barge-in handling: when the shared stream sid is truthy, send the
`clear` control envelope; otherwise send nothing. -/
def sendClear (st : PhonicPumpState) : PhonicPumpState :=
  match st.shared.twilio_stream_sid with
  | some sid =>
      if sid != "" then
        { st with outbound := st.outbound ++ [TwilioOut.clear sid] }
      else st
  | none => st

/-- One iteration of `process_phonic_messages`: dispatch on the message
type exactly as the if/elif chain of the source does. -/
def processPhonicMessage (st : PhonicPumpState) (msg : PhonicMessage) : PhonicPumpState :=
  match msg with
  | .audio_chunk audio text => forwardAudio (appendFragment st text) audio
  | .audio_finished =>
      if st.text_buffer != "" then
        { st with text_buffer := "", logs := st.logs ++ [LogEvent.assistant st.text_buffer] }
      else st
  | .input_text t => { st with logs := st.logs ++ [LogEvent.user t] }
  | .interrupted_response =>
      { sendClear st with logs := (sendClear st).logs ++ [LogEvent.interrupted] }
  | .unknown => st

/-- The speech-service pump's loop over a finite message stream. -/
def runPhonic (msgs : List PhonicMessage) (st : PhonicPumpState) : PhonicPumpState :=
  msgs.foldl processPhonicMessage st

/-- The completed-utterance log events of a trace, in order. -/
def assistantLogs (logs : List LogEvent) : List String :=
  logs.filterMap fun e =>
    match e with
    | .assistant s => some s
    | _ => none

/-- Initial state of the speech-service pump for a fresh connection:
empty buffer, no sid recorded, nothing sent, nothing logged. -/
def initPhonicState : PhonicPumpState :=
  { text_buffer := "", shared := { twilio_stream_sid := none }, outbound := [], logs := [] }

/-! ## Base64 (canonical RFC 4648 alphabet with padding) -/

/-- The standard base64 alphabet, in index order. -/
def b64Alphabet : List Char :=
  "ABCDEFGHIJKLMNOPQRSTUVWXYZabcdefghijklmnopqrstuvwxyz0123456789+/".toList

/-- Index of a character in the base64 alphabet, `none` for a character
outside the alphabet. -/
def b64Index (c : Char) : Option Nat :=
  b64Alphabet.findIdx? fun d => d == c

/-- The alphabet character for a 6-bit value. -/
def b64Char (n : Nat) : Char :=
  b64Alphabet.getD n '?'

/-- Encode a byte list three bytes at a time, padding the final group
with one or two padding characters. -/
def b64EncodeBytes : List Nat → List Char
  | [] => []
  | [a] => [b64Char (a / 4), b64Char (a % 4 * 16), '=', '=']
  | [a, b] => [b64Char (a / 4), b64Char (a % 4 * 16 + b / 16), b64Char (b % 16 * 4), '=']
  | a :: b :: c :: rest =>
      b64Char (a / 4) :: b64Char (a % 4 * 16 + b / 16) :: b64Char (b % 16 * 4 + c / 64) ::
        b64Char (c % 64) :: b64EncodeBytes rest

/-- Base64-encode a byte list to a string. -/
def b64encode (bs : List Nat) : String :=
  String.mk (b64EncodeBytes bs)

/-- Decode canonical base64 text four characters at a time; the final
group may carry one or two padding characters.  Any other shape, or a
character outside the alphabet, decodes to `none`. -/
def b64DecodeChars : List Char → Option (List Nat)
  | [] => some []
  | [c1, c2, '=', '='] => do
      let x1 ← b64Index c1
      let x2 ← b64Index c2
      some [x1 * 4 + x2 / 16]
  | [c1, c2, c3, '='] => do
      let x1 ← b64Index c1
      let x2 ← b64Index c2
      let x3 ← b64Index c3
      some [x1 * 4 + x2 / 16, x2 % 16 * 16 + x3 / 4]
  | c1 :: c2 :: c3 :: c4 :: rest => do
      let x1 ← b64Index c1
      let x2 ← b64Index c2
      let x3 ← b64Index c3
      let x4 ← b64Index c4
      let tail ← b64DecodeChars rest
      some ((x1 * 4 + x2 / 16) :: (x2 % 16 * 16 + x3 / 4) :: (x3 % 4 * 64 + x4) :: tail)
  | _ => none

/-- Model of `base64.b64decode` on the payload strings this bridge
handles: canonical base64 decodes to its byte list, anything else to
`none` (the source would raise there). -/
def b64decode (s : String) : Option (List Nat) :=
  b64DecodeChars s.toList

/-! ## Telephony inbound pump (`process_twilio_messages`) -/

/-- The nested `media` object of a telephony frame: the `track` entry is
read with a `.get` chain (absent means `none`), the `payload` entry
holds the base64 audio. -/
structure MediaField where
  track : Option String
  payload : String
deriving DecidableEq

/-- A decoded telephony media-stream frame, as the protocol defines it:
an `event` tag, the `streamSid`, and the optional `media` object. -/
structure TwilioFrame where
  event : String
  streamSid : String
  media : Option MediaField
deriving DecidableEq

/-- The `track` of a frame through the source's defaulted `.get` chain:
absent `media` yields `none`. -/
def frameTrack (f : TwilioFrame) : Option String :=
  match f.media with
  | some m => m.track
  | none => none

/-- The `payload` of a frame's `media` object; only consulted on frames
whose `media` object is present. -/
def framePayload (f : TwilioFrame) : String :=
  match f.media with
  | some m => m.payload
  | none => ""

/-- The guard of the audio branch: a `media` event whose track is the
string `inbound`. -/
def isInboundMedia (f : TwilioFrame) : Bool :=
  f.event == "media" && frameTrack f == some "inbound"

/-- One received item of the telephony loop, classified by the source's
try/except structure: the receive call raised, the received text failed
JSON decoding, or a frame was decoded. -/
inductive TwilioRecv where
  | recvError
  | badJson (raw : String)
  | frame (f : TwilioFrame)
deriving DecidableEq

/-- Log events of the telephony pump. -/
inductive TwilioLog where
  | connected
  | started
  | recvErrorLogged
  | jsonErrorLogged (raw : String)
deriving DecidableEq

/-- State of the telephony inbound pump: the shared session state, the
byte payloads submitted to the speech-service client in order, and the
log trace. -/
structure TwilioPumpState where
  shared : SharedState
  sentAudio : List (List Nat)
  logs : List TwilioLog
deriving DecidableEq

/-- First-sight recording of the stream sid: the source assigns
`shared_state["twilio_stream_sid"] = data["streamSid"]` exactly when the
current entry is falsy. -/
def sidUpdate (st : TwilioPumpState) (f : TwilioFrame) : TwilioPumpState :=
  if strTruthy st.shared.twilio_stream_sid then st
  else { st with shared := { twilio_stream_sid := some f.streamSid } }

/-- Processing of one decoded frame.  `error` marks an exception the
source does not catch (a payload `base64.b64decode` rejects), carrying
the state at the moment the pump task fails. -/
def processTwilioFrame (st : TwilioPumpState) (f : TwilioFrame) :
    Except TwilioPumpState TwilioPumpState :=
  if f.event == "connected" then
    .ok { st with logs := st.logs ++ [TwilioLog.connected] }
  else if f.event == "start" then
    .ok { st with logs := st.logs ++ [TwilioLog.started] }
  else if isInboundMedia f then
    match b64decode (framePayload f) with
    | some bytes => .ok { sidUpdate st f with sentAudio := (sidUpdate st f).sentAudio ++ [bytes] }
    | none => .error (sidUpdate st f)
  else
    .ok st

/-- The state a frame-processing step leaves behind, whether the step
returned normally or raised. -/
def exceptState : Except TwilioPumpState TwilioPumpState → TwilioPumpState
  | .ok st => st
  | .error st => st

/-- The receive loop of `process_twilio_messages` over a finite prefix
of received items: a receive error is logged and breaks the loop, a
JSON decode error is logged and the loop continues, a decoded frame is
processed (and an uncaught exception inside processing ends the task). -/
def runTwilio (inputs : List TwilioRecv) (st : TwilioPumpState) : TwilioPumpState :=
  match inputs with
  | [] => st
  | TwilioRecv.recvError :: _ =>
      { st with logs := st.logs ++ [TwilioLog.recvErrorLogged] }
  | TwilioRecv.badJson raw :: rest =>
      runTwilio rest { st with logs := st.logs ++ [TwilioLog.jsonErrorLogged raw] }
  | TwilioRecv.frame f :: rest =>
      match processTwilioFrame st f with
      | .ok st1 => runTwilio rest st1
      | .error st1 => st1

/-- Initial state of the telephony pump for a fresh connection. -/
def initTwilioState : TwilioPumpState :=
  { shared := { twilio_stream_sid := none }, sentAudio := [], logs := [] }

/-! ## Connection coordinator (`websocket_endpoint`) -/

/-- How a pump task ends: a normal return, or an uncaught exception
failing the task. -/
inductive PumpResult where
  | completed
  | raised (e : String)
deriving DecidableEq

/-- Which pump's task the `asyncio.wait FIRST_COMPLETED` race reports
first, and how that task ended. -/
inductive FirstDone where
  | phonicFirst (r : PumpResult)
  | twilioFirst (r : PumpResult)
deriving DecidableEq

/-- One run of the coordinator, described by the outcome of each
suspension point of its sequence: whether the accept raised, whether
opening the speech-service client raised, and which pump finished
first when the race was reached. -/
structure CoordScenario where
  acceptError : Option String
  connectError : Option String
  firstDone : FirstDone
deriving DecidableEq

/-- Observable outcome of one run of the connection handler. -/
structure CoordResult where
  errorLogged : Option String
  propagated : Option String
  clientAcquired : Bool
  clientReleaseCount : Nat
  websocketReleaseCount : Nat
  otherTaskCancelled : Bool
  awaitedCancellation : Bool
deriving DecidableEq

/-- The connection handler.  The whole body sits in a try/except that
catches and logs any exception of the sequence itself; the speech-service
client is scoped by an async-with, whose exit releases it exactly once
when (and only when) its entry succeeded; the race returns the first
completed task without re-raising a failed task's exception, so a pump
failure reaches neither the except branch nor the log; the pending task
is cancelled without awaiting the cancellation; the telephony socket is
released by the framework once the handler returns, on every path. -/
def websocket_endpoint (sc : CoordScenario) : CoordResult :=
  match sc.acceptError with
  | some e =>
      { errorLogged := some e, propagated := none, clientAcquired := false,
        clientReleaseCount := 0, websocketReleaseCount := 1,
        otherTaskCancelled := false, awaitedCancellation := false }
  | none =>
      match sc.connectError with
      | some e =>
          { errorLogged := some e, propagated := none, clientAcquired := false,
            clientReleaseCount := 0, websocketReleaseCount := 1,
            otherTaskCancelled := false, awaitedCancellation := false }
      | none =>
          { errorLogged := none, propagated := none, clientAcquired := true,
            clientReleaseCount := 1, websocketReleaseCount := 1,
            otherTaskCancelled := true, awaitedCancellation := false }

/-- Did any exception arise in the coordinator's sequence (accept,
peer-connect, or a pump task failing)? -/
def scenarioException (sc : CoordScenario) : Bool :=
  sc.acceptError.isSome || sc.connectError.isSome ||
    (match sc.firstDone with
     | .phonicFirst (.raised _) => true
     | .twilioFirst (.raised _) => true
     | _ => false)

/-! ## Helper lemmas -/

theorem appendFragment_shared (st : PhonicPumpState) (t : Option String) :
    (appendFragment st t).shared = st.shared := by
  unfold appendFragment
  cases t with
  | none => rfl
  | some s =>
    dsimp only
    split
    · split <;> rfl
    · rfl

theorem appendFragment_outbound (st : PhonicPumpState) (t : Option String) :
    (appendFragment st t).outbound = st.outbound := by
  unfold appendFragment
  cases t with
  | none => rfl
  | some s =>
    dsimp only
    split
    · split <;> rfl
    · rfl

theorem forwardAudio_text_buffer (st : PhonicPumpState) (a : String) :
    (forwardAudio st a).text_buffer = st.text_buffer := by
  unfold forwardAudio
  cases st.shared.twilio_stream_sid with
  | none => rfl
  | some s =>
    dsimp only
    split <;> rfl

theorem forwardAudio_logs (st : PhonicPumpState) (a : String) :
    (forwardAudio st a).logs = st.logs := by
  unfold forwardAudio
  cases st.shared.twilio_stream_sid with
  | none => rfl
  | some s =>
    dsimp only
    split <;> rfl

theorem forwardAudio_none (st : PhonicPumpState) (a : String)
    (h : st.shared.twilio_stream_sid = none) : forwardAudio st a = st := by
  unfold forwardAudio
  rw [h]

theorem forwardAudio_some (st : PhonicPumpState) (a s : String)
    (h : st.shared.twilio_stream_sid = some s) (hs : s ≠ "") :
    forwardAudio st a = { st with outbound := st.outbound ++ [TwilioOut.media s a] } := by
  unfold forwardAudio
  rw [h]
  exact if_pos (bne_iff_ne.mpr hs)

theorem sendClear_text_buffer (st : PhonicPumpState) :
    (sendClear st).text_buffer = st.text_buffer := by
  unfold sendClear
  cases st.shared.twilio_stream_sid with
  | none => rfl
  | some s =>
    dsimp only
    split <;> rfl

theorem sendClear_some (st : PhonicPumpState) (s : String)
    (h : st.shared.twilio_stream_sid = some s) (hs : s ≠ "") :
    sendClear st = { st with outbound := st.outbound ++ [TwilioOut.clear s] } := by
  unfold sendClear
  rw [h]
  exact if_pos (bne_iff_ne.mpr hs)

theorem sendClear_falsy (st : PhonicPumpState)
    (h : strTruthy st.shared.twilio_stream_sid = false) : sendClear st = st := by
  unfold sendClear
  cases hsid : st.shared.twilio_stream_sid with
  | none => rfl
  | some s =>
    dsimp only
    rw [hsid] at h
    simp only [strTruthy] at h
    exact if_neg (by rw [h]; exact Bool.false_ne_true)

theorem assistantLogs_append (l1 l2 : List LogEvent) :
    assistantLogs (l1 ++ l2) = assistantLogs l1 ++ assistantLogs l2 := by
  unfold assistantLogs
  exact List.filterMap_append l1 l2 _

theorem sidUpdate_of_truthy (st : TwilioPumpState) (f : TwilioFrame)
    (h : strTruthy st.shared.twilio_stream_sid = true) : sidUpdate st f = st := by
  unfold sidUpdate
  exact if_pos h

theorem sidUpdate_of_falsy (st : TwilioPumpState) (f : TwilioFrame)
    (h : strTruthy st.shared.twilio_stream_sid = false) :
    sidUpdate st f = { st with shared := { twilio_stream_sid := some f.streamSid } } := by
  unfold sidUpdate
  exact if_neg (by rw [h]; exact Bool.false_ne_true)

theorem sidUpdate_sentAudio (st : TwilioPumpState) (f : TwilioFrame) :
    (sidUpdate st f).sentAudio = st.sentAudio := by
  unfold sidUpdate
  split <;> rfl

theorem isInboundMedia_event (f : TwilioFrame) (h : isInboundMedia f = true) :
    f.event = "media" := by
  unfold isInboundMedia at h
  exact eq_of_beq (Bool.and_eq_true_iff.mp h).1

theorem processTwilioFrame_shared_of_truthy (st : TwilioPumpState) (f : TwilioFrame)
    (h : strTruthy st.shared.twilio_stream_sid = true) :
    (exceptState (processTwilioFrame st f)).shared = st.shared := by
  unfold processTwilioFrame
  split
  · rfl
  · split
    · rfl
    · split
      · rw [sidUpdate_of_truthy st f h]
        split <;> rfl
      · rfl

theorem runTwilio_cons (i : TwilioRecv) (rest : List TwilioRecv) (st : TwilioPumpState) :
    runTwilio (i :: rest) st =
      match i with
      | TwilioRecv.recvError => { st with logs := st.logs ++ [TwilioLog.recvErrorLogged] }
      | TwilioRecv.badJson raw =>
          runTwilio rest { st with logs := st.logs ++ [TwilioLog.jsonErrorLogged raw] }
      | TwilioRecv.frame f =>
          match processTwilioFrame st f with
          | Except.ok st1 => runTwilio rest st1
          | Except.error st1 => st1 := by
  cases i <;> rfl

theorem runTwilio_shared_of_truthy (inputs : List TwilioRecv) (st : TwilioPumpState)
    (h : strTruthy st.shared.twilio_stream_sid = true) :
    (runTwilio inputs st).shared = st.shared := by
  induction inputs generalizing st with
  | nil => rfl
  | cons i rest ih =>
    cases i with
    | recvError => rfl
    | badJson raw =>
      exact ih { st with logs := st.logs ++ [TwilioLog.jsonErrorLogged raw] } h
    | frame f =>
      have hstep := processTwilioFrame_shared_of_truthy st f h
      rw [runTwilio_cons]
      dsimp only
      cases hp : processTwilioFrame st f with
      | ok st1 =>
        rw [hp] at hstep
        have h1 : st1.shared = st.shared := hstep
        rw [ih st1 (by rw [h1]; exact h), h1]
      | error st1 =>
        rw [hp] at hstep
        exact hstep

theorem appendFragment_flush (st : PhonicPumpState) (t : String) (ht : (t != "") = true)
    (hp : containsSentencePunc (st.text_buffer ++ t) = true) :
    appendFragment st (some t)
      = { st with text_buffer := "",
                  logs := st.logs ++ [LogEvent.assistant (st.text_buffer ++ t)] } := by
  unfold appendFragment
  dsimp only
  rw [if_pos ht, if_pos hp]

theorem appendFragment_accumulate (st : PhonicPumpState) (t : String) (ht : (t != "") = true)
    (hp : containsSentencePunc (st.text_buffer ++ t) = false) :
    appendFragment st (some t) = { st with text_buffer := st.text_buffer ++ t } := by
  unfold appendFragment
  dsimp only
  rw [if_pos ht, if_neg (by rw [hp]; exact Bool.false_ne_true)]

theorem processPhonicMessage_noPunc (st : PhonicPumpState) (msg : PhonicMessage)
    (h : containsSentencePunc st.text_buffer = false) :
    containsSentencePunc (processPhonicMessage st msg).text_buffer = false := by
  cases msg with
  | audio_chunk a t =>
    show containsSentencePunc (forwardAudio (appendFragment st t) a).text_buffer = false
    rw [forwardAudio_text_buffer]
    cases t with
    | none => exact h
    | some s =>
      unfold appendFragment
      dsimp only
      split
      · split
        · rename_i hp
          rfl
        · rename_i hp
          exact Bool.eq_false_iff.mpr hp
      · exact h
  | audio_finished =>
    show containsSentencePunc
        (if (st.text_buffer != "") = true then
          { st with text_buffer := "",
                    logs := st.logs ++ [LogEvent.assistant st.text_buffer] }
         else st).text_buffer = false
    split
    · rfl
    · exact h
  | input_text t => exact h
  | interrupted_response =>
    show containsSentencePunc (sendClear st).text_buffer = false
    rw [sendClear_text_buffer]
    exact h
  | unknown => exact h

theorem runPhonic_noPunc (msgs : List PhonicMessage) (st : PhonicPumpState)
    (h : containsSentencePunc st.text_buffer = false) :
    containsSentencePunc (runPhonic msgs st).text_buffer = false := by
  induction msgs generalizing st with
  | nil => exact h
  | cons m rest ih => exact ih _ (processPhonicMessage_noPunc st m h)

/-! ## Claims -/

/-- C1 (counterexample to the claim as stated): when the first inbound
media frame carries an empty `streamSid`, the recorded stream id does not
equal the first frame's `streamSid` and a later frame does overwrite it:
the source's guard uses Python truthiness, and the empty string is falsy. -/
theorem c1_counterexample_empty_first_sid :
    (runTwilio
        [TwilioRecv.frame
           { event := "media", streamSid := "",
             media := some { track := some "inbound", payload := "" } },
         TwilioRecv.frame
           { event := "media", streamSid := "SID2",
             media := some { track := some "inbound", payload := "" } }]
        initTwilioState).shared.twilio_stream_sid = some "SID2" ∧
    (some "SID2" : Option String) ≠ some "" := by
  decide

/-- C1 (amended): once the recorded stream id is truthy (a non-empty
string), no later received item of the telephony loop ever changes the
shared state again, and an inbound media frame processed while the
recorded id is still falsy (unset or empty) records that frame's
`streamSid` — first-writer-wins under Python truthiness. -/
theorem c1_stream_sid_first_writer_wins :
    (∀ (inputs : List TwilioRecv) (st : TwilioPumpState),
        strTruthy st.shared.twilio_stream_sid = true →
        (runTwilio inputs st).shared = st.shared) ∧
    (∀ (st : TwilioPumpState) (f : TwilioFrame),
        strTruthy st.shared.twilio_stream_sid = false →
        isInboundMedia f = true →
        (exceptState (processTwilioFrame st f)).shared.twilio_stream_sid
          = some f.streamSid) := by
  constructor
  · exact runTwilio_shared_of_truthy
  · intro st f h hm
    have he := isInboundMedia_event f hm
    unfold processTwilioFrame
    rw [if_neg (by rw [he]; decide), if_neg (by rw [he]; decide), if_pos hm]
    cases hb : b64decode (framePayload f) with
    | some bytes =>
      dsimp only [exceptState]
      rw [sidUpdate_of_falsy st f h]
    | none =>
      dsimp only [exceptState]
      rw [sidUpdate_of_falsy st f h]

/-- Witness for C1: a frame sequence whose state already holds a truthy
sid is left with that sid, and an inbound media frame seen from the fresh
state records its sid. -/
theorem c1_stream_sid_first_writer_wins_witness :
    (runTwilio [TwilioRecv.badJson "oops"]
        { shared := { twilio_stream_sid := some "MZ1" }, sentAudio := [], logs := [] }).shared
      = ({ shared := { twilio_stream_sid := some "MZ1" }, sentAudio := [],
           logs := [] } : TwilioPumpState).shared ∧
    (exceptState (processTwilioFrame initTwilioState
        { event := "media", streamSid := "MZ2",
          media := some { track := some "inbound", payload := "AQID" } })).shared.twilio_stream_sid
      = some "MZ2" :=
  ⟨c1_stream_sid_first_writer_wins.1 _ _ (by decide),
   c1_stream_sid_first_writer_wins.2 _ _ (by decide) (by decide)⟩

/-- C2: an `audio_chunk` processed while the stream id is still unset
emits no outbound envelope, and the resulting pump state does not depend
on the chunk's audio at all — the audio is dropped, not queued. -/
theorem c2_audio_dropped_before_sid :
    ∀ (st : PhonicPumpState) (a1 a2 : String) (t : Option String),
      st.shared.twilio_stream_sid = none →
      (processPhonicMessage st (PhonicMessage.audio_chunk a1 t)).outbound = st.outbound ∧
      processPhonicMessage st (PhonicMessage.audio_chunk a1 t)
        = processPhonicMessage st (PhonicMessage.audio_chunk a2 t) := by
  intro st a1 a2 t h
  have hsh : (appendFragment st t).shared.twilio_stream_sid = none := by
    rw [appendFragment_shared st t, h]
  constructor
  · show (forwardAudio (appendFragment st t) a1).outbound = st.outbound
    rw [forwardAudio_none _ _ hsh]
    exact appendFragment_outbound st t
  · show forwardAudio (appendFragment st t) a1 = forwardAudio (appendFragment st t) a2
    rw [forwardAudio_none _ _ hsh, forwardAudio_none _ _ hsh]

/-- Witness for C2 on the fresh connection state. -/
theorem c2_audio_dropped_before_sid_witness :
    (processPhonicMessage initPhonicState (PhonicMessage.audio_chunk "AAAA" none)).outbound
      = initPhonicState.outbound ∧
    processPhonicMessage initPhonicState (PhonicMessage.audio_chunk "AAAA" none)
      = processPhonicMessage initPhonicState (PhonicMessage.audio_chunk "BBBB" none) :=
  c2_audio_dropped_before_sid initPhonicState "AAAA" "BBBB" none rfl

/-- C3 (counterexample to the claim as stated): with the stream id set to
the empty string — a set, non-`None` value, reachable when the first
inbound frame carries an empty `streamSid` — an echoed `audio_chunk`
never reaches the telephony peer: the guard on the send tests Python
truthiness rather than presence, so the claimed round trip fails even
though the stream id is set. -/
theorem c3_counterexample_empty_sid_drops_audio :
    (({ text_buffer := "", shared := { twilio_stream_sid := some "" }, outbound := [],
        logs := [] } : PhonicPumpState).shared.twilio_stream_sid).isSome = true ∧
    (processPhonicMessage
        { text_buffer := "", shared := { twilio_stream_sid := some "" }, outbound := [],
          logs := [] }
        (PhonicMessage.audio_chunk (b64encode [1, 2, 3]) none)).outbound = [] := by
  decide

/-- C3 (amended): audio round-trips through the bridge unchanged.  An
inbound media frame submits exactly the base64-decoding of its payload to
the speech-service peer, and an `audio_chunk` whose audio is the
base64-re-encoding of those bytes, processed while the recorded stream id
is a non-empty `s`, reaches the telephony peer as a `media` envelope
carrying that very re-encoding and the recorded id.  (While the recorded
id is falsy — unset or empty — the chunk is dropped instead; see the
counterexample.) -/
theorem c3_roundtrip_bytes_preserved :
    (∀ (st : TwilioPumpState) (f : TwilioFrame) (bs : List Nat),
        isInboundMedia f = true →
        b64decode (framePayload f) = some bs →
        ∃ st1, processTwilioFrame st f = Except.ok st1 ∧
          st1.sentAudio = st.sentAudio ++ [bs]) ∧
    (∀ (st : PhonicPumpState) (bs : List Nat) (t : Option String) (s : String),
        st.shared.twilio_stream_sid = some s → s ≠ "" →
        (processPhonicMessage st (PhonicMessage.audio_chunk (b64encode bs) t)).outbound
          = st.outbound ++ [TwilioOut.media s (b64encode bs)]) := by
  constructor
  · intro st f bs hm hb
    have he := isInboundMedia_event f hm
    unfold processTwilioFrame
    rw [if_neg (by rw [he]; decide), if_neg (by rw [he]; decide), if_pos hm, hb]
    exact ⟨_, rfl, by rw [sidUpdate_sentAudio]⟩
  · intro st bs t s h hs
    show (forwardAudio (appendFragment st t) (b64encode bs)).outbound
      = st.outbound ++ [TwilioOut.media s (b64encode bs)]
    rw [forwardAudio_some _ _ s (by rw [appendFragment_shared st t, h]) hs]
    rw [appendFragment_outbound st t]

/-- Witness for C3 at the payload encoding the bytes 1, 2, 3. -/
theorem c3_roundtrip_bytes_preserved_witness :
    (∃ st1,
        processTwilioFrame initTwilioState
            { event := "media", streamSid := "MZ7",
              media := some { track := some "inbound", payload := "AQID" } }
          = Except.ok st1 ∧
        st1.sentAudio = initTwilioState.sentAudio ++ [[1, 2, 3]]) ∧
    (processPhonicMessage
        { text_buffer := "", shared := { twilio_stream_sid := some "MZ7" },
          outbound := [], logs := [] }
        (PhonicMessage.audio_chunk (b64encode [1, 2, 3]) none)).outbound
      = [] ++ [TwilioOut.media "MZ7" (b64encode [1, 2, 3])] :=
  ⟨c3_roundtrip_bytes_preserved.1 _ _ [1, 2, 3] (by decide) (by decide),
   c3_roundtrip_bytes_preserved.2 _ [1, 2, 3] none "MZ7" rfl (by decide)⟩

/-- C4: the fragments Hello, space-there, period produce exactly one
completed-utterance log, reading the full sentence, and leave the buffer
empty; and in general a non-empty fragment is appended, the buffer being
logged and cleared exactly when it then contains sentence punctuation. -/
theorem c4_sentence_flush :
    (assistantLogs (runPhonic
        [PhonicMessage.audio_chunk "" (some "Hello"),
         PhonicMessage.audio_chunk "" (some " there"),
         PhonicMessage.audio_chunk "" (some ".")] initPhonicState).logs
      = ["Hello there."] ∧
     (runPhonic
        [PhonicMessage.audio_chunk "" (some "Hello"),
         PhonicMessage.audio_chunk "" (some " there"),
         PhonicMessage.audio_chunk "" (some ".")] initPhonicState).text_buffer = "") ∧
    (∀ (st : PhonicPumpState) (a t : String), t ≠ "" →
      (containsSentencePunc (st.text_buffer ++ t) = true →
        (processPhonicMessage st (PhonicMessage.audio_chunk a (some t))).text_buffer = "" ∧
        assistantLogs (processPhonicMessage st (PhonicMessage.audio_chunk a (some t))).logs
          = assistantLogs st.logs ++ [st.text_buffer ++ t]) ∧
      (containsSentencePunc (st.text_buffer ++ t) = false →
        (processPhonicMessage st (PhonicMessage.audio_chunk a (some t))).text_buffer
          = st.text_buffer ++ t ∧
        (processPhonicMessage st (PhonicMessage.audio_chunk a (some t))).logs
          = st.logs)) := by
  refine ⟨⟨by decide, by decide⟩, ?_⟩
  intro st a t ht
  have hbne : (t != "") = true := bne_iff_ne.mpr ht
  constructor
  · intro hp
    have hA := appendFragment_flush st t hbne hp
    constructor
    · show (forwardAudio (appendFragment st (some t)) a).text_buffer = ""
      rw [forwardAudio_text_buffer, hA]
    · show assistantLogs (forwardAudio (appendFragment st (some t)) a).logs
        = assistantLogs st.logs ++ [st.text_buffer ++ t]
      rw [forwardAudio_logs, hA]
      show assistantLogs (st.logs ++ [LogEvent.assistant (st.text_buffer ++ t)])
        = assistantLogs st.logs ++ [st.text_buffer ++ t]
      rw [assistantLogs_append]
      rfl
  · intro hp
    have hA := appendFragment_accumulate st t hbne hp
    constructor
    · show (forwardAudio (appendFragment st (some t)) a).text_buffer = st.text_buffer ++ t
      rw [forwardAudio_text_buffer, hA]
    · show (forwardAudio (appendFragment st (some t)) a).logs = st.logs
      rw [forwardAudio_logs, hA]

/-- Witness for C4's general part at a concrete buffer and fragment. -/
theorem c4_sentence_flush_witness :
    ("x" : String) ≠ "" ∧
    containsSentencePunc ((initPhonicState.text_buffer) ++ "x") = false ∧
    (processPhonicMessage initPhonicState
        (PhonicMessage.audio_chunk "" (some "x"))).text_buffer
      = initPhonicState.text_buffer ++ "x" :=
  ⟨by decide, by decide,
   ((c4_sentence_flush.2 initPhonicState "" "x" (by decide)).2 (by decide)).1⟩

/-- C5: the fragments Wait and space-for-it followed by `audio_finished`
yield no flush before the `audio_finished` message and exactly one flush
at it, reading the accumulated text; and in general `audio_finished`
flushes the buffer exactly when it is non-empty. -/
theorem c5_audio_finished_flush :
    (assistantLogs (runPhonic
        [PhonicMessage.audio_chunk "" (some "Wait"),
         PhonicMessage.audio_chunk "" (some " for it")] initPhonicState).logs = [] ∧
     (runPhonic
        [PhonicMessage.audio_chunk "" (some "Wait"),
         PhonicMessage.audio_chunk "" (some " for it")] initPhonicState).text_buffer
       = "Wait for it") ∧
    (assistantLogs (runPhonic
        [PhonicMessage.audio_chunk "" (some "Wait"),
         PhonicMessage.audio_chunk "" (some " for it"),
         PhonicMessage.audio_finished] initPhonicState).logs = ["Wait for it"] ∧
     (runPhonic
        [PhonicMessage.audio_chunk "" (some "Wait"),
         PhonicMessage.audio_chunk "" (some " for it"),
         PhonicMessage.audio_finished] initPhonicState).text_buffer = "") ∧
    (∀ st : PhonicPumpState,
      (st.text_buffer ≠ "" →
        processPhonicMessage st PhonicMessage.audio_finished
          = { st with text_buffer := "",
                      logs := st.logs ++ [LogEvent.assistant st.text_buffer] }) ∧
      (st.text_buffer = "" →
        processPhonicMessage st PhonicMessage.audio_finished = st)) := by
  refine ⟨⟨by decide, by decide⟩, ⟨by decide, by decide⟩, ?_⟩
  intro st
  constructor
  · intro h
    show (if (st.text_buffer != "") = true then
        { st with text_buffer := "",
                  logs := st.logs ++ [LogEvent.assistant st.text_buffer] }
      else st)
      = { st with text_buffer := "",
                  logs := st.logs ++ [LogEvent.assistant st.text_buffer] }
    rw [if_pos (bne_iff_ne.mpr h)]
  · intro h
    show (if (st.text_buffer != "") = true then
        { st with text_buffer := "",
                  logs := st.logs ++ [LogEvent.assistant st.text_buffer] }
      else st) = st
    rw [if_neg (by rw [h]; decide)]

/-- Witness for C5's general part: a non-empty buffer is flushed and an
empty buffer is left alone. -/
theorem c5_audio_finished_flush_witness :
    ("pending" : String) ≠ "" ∧
    processPhonicMessage
        { text_buffer := "pending", shared := { twilio_stream_sid := none },
          outbound := [], logs := [] } PhonicMessage.audio_finished
      = { text_buffer := "", shared := { twilio_stream_sid := none }, outbound := [],
          logs := [LogEvent.assistant "pending"] } ∧
    processPhonicMessage initPhonicState PhonicMessage.audio_finished = initPhonicState :=
  ⟨by decide,
   (c5_audio_finished_flush.2.2
     { text_buffer := "pending", shared := { twilio_stream_sid := none },
       outbound := [], logs := [] }).1 (by decide),
   (c5_audio_finished_flush.2.2 initPhonicState).2 rfl⟩

/-- C6 (counterexample to the claim as stated): with the stream id set to
the empty string — a set, non-`None` value, reachable when the first
inbound frame carries an empty `streamSid` — an `interrupted_response`
produces no outbound envelope at all, because the source's guard tests
Python truthiness rather than presence. -/
theorem c6_counterexample_empty_sid_no_clear :
    (({ text_buffer := "", shared := { twilio_stream_sid := some "" }, outbound := [],
        logs := [] } : PhonicPumpState).shared.twilio_stream_sid).isSome = true ∧
    (processPhonicMessage
        { text_buffer := "", shared := { twilio_stream_sid := some "" }, outbound := [],
          logs := [] }
        PhonicMessage.interrupted_response).outbound = [] := by
  decide

/-- C6 (amended): an `interrupted_response` processed while the recorded
stream id is a non-empty string sends exactly one `clear` envelope
carrying that id, leaving `text_buffer` and the shared state unchanged;
while the id is falsy (unset or empty) it sends nothing, again leaving
`text_buffer` unchanged. -/
theorem c6_interrupted_sends_clear :
    (∀ (st : PhonicPumpState) (s : String),
        st.shared.twilio_stream_sid = some s → s ≠ "" →
        (processPhonicMessage st PhonicMessage.interrupted_response).outbound
          = st.outbound ++ [TwilioOut.clear s] ∧
        (processPhonicMessage st PhonicMessage.interrupted_response).text_buffer
          = st.text_buffer ∧
        (processPhonicMessage st PhonicMessage.interrupted_response).shared
          = st.shared) ∧
    (∀ st : PhonicPumpState,
        strTruthy st.shared.twilio_stream_sid = false →
        (processPhonicMessage st PhonicMessage.interrupted_response).outbound
          = st.outbound ∧
        (processPhonicMessage st PhonicMessage.interrupted_response).text_buffer
          = st.text_buffer) := by
  constructor
  · intro st s h hs
    have hc := sendClear_some st s h hs
    refine ⟨?_, ?_, ?_⟩
    · show (sendClear st).outbound = st.outbound ++ [TwilioOut.clear s]
      rw [hc]
    · show (sendClear st).text_buffer = st.text_buffer
      exact sendClear_text_buffer st
    · show (sendClear st).shared = st.shared
      rw [hc]
  · intro st h
    have hc := sendClear_falsy st h
    constructor
    · show (sendClear st).outbound = st.outbound
      rw [hc]
    · show (sendClear st).text_buffer = st.text_buffer
      exact sendClear_text_buffer st

/-- Witness for C6 with a non-empty recorded id and with the fresh state. -/
theorem c6_interrupted_sends_clear_witness :
    (processPhonicMessage
        { text_buffer := "hi", shared := { twilio_stream_sid := some "MZ5" },
          outbound := [], logs := [] }
        PhonicMessage.interrupted_response).outbound = [] ++ [TwilioOut.clear "MZ5"] ∧
    (processPhonicMessage initPhonicState PhonicMessage.interrupted_response).outbound
      = initPhonicState.outbound :=
  ⟨(c6_interrupted_sends_clear.1
      { text_buffer := "hi", shared := { twilio_stream_sid := some "MZ5" },
        outbound := [], logs := [] } "MZ5" rfl (by decide)).1,
   (c6_interrupted_sends_clear.2 initPhonicState rfl).1⟩

/-- C7: in the telephony receive loop, a receive-level error is logged
and ends the loop ignoring everything after it; a JSON-decode failure is
logged and the loop continues on the rest with the shared state and the
submitted audio unchanged; a decoded frame undergoes normal frame
processing; and every received item is exactly one of those three. -/
theorem c7_receive_loop_trichotomy :
    (∀ (rest : List TwilioRecv) (st : TwilioPumpState),
        runTwilio (TwilioRecv.recvError :: rest) st
          = { st with logs := st.logs ++ [TwilioLog.recvErrorLogged] }) ∧
    (∀ (raw : String) (rest : List TwilioRecv) (st : TwilioPumpState),
        runTwilio (TwilioRecv.badJson raw :: rest) st
          = runTwilio rest { st with logs := st.logs ++ [TwilioLog.jsonErrorLogged raw] } ∧
        ({ st with logs := st.logs ++ [TwilioLog.jsonErrorLogged raw] }
            : TwilioPumpState).shared = st.shared ∧
        ({ st with logs := st.logs ++ [TwilioLog.jsonErrorLogged raw] }
            : TwilioPumpState).sentAudio = st.sentAudio) ∧
    (∀ (f : TwilioFrame) (rest : List TwilioRecv) (st : TwilioPumpState),
        runTwilio (TwilioRecv.frame f :: rest) st
          = match processTwilioFrame st f with
            | Except.ok st1 => runTwilio rest st1
            | Except.error st1 => st1) ∧
    (∀ r : TwilioRecv,
        r = TwilioRecv.recvError ∨ (∃ raw, r = TwilioRecv.badJson raw) ∨
          ∃ f, r = TwilioRecv.frame f) := by
  refine ⟨fun rest st => rfl, fun raw rest st => ⟨rfl, rfl, rfl⟩, fun f rest st => rfl, ?_⟩
  intro r
  cases r with
  | recvError => exact Or.inl rfl
  | badJson raw => exact Or.inr (Or.inl ⟨raw, rfl⟩)
  | frame f => exact Or.inr (Or.inr ⟨f, rfl⟩)

/-- C8 (counterexample to the claim as stated): a pump task failing with
an exception is an exception of the coordinator's sequence, yet the
handler's error log stays empty — the race returns the failed task
without re-raising, so the except branch never sees the exception. -/
theorem c8_counterexample_pump_failure_unlogged :
    scenarioException
        { acceptError := none, connectError := none,
          firstDone := FirstDone.twilioFirst (PumpResult.raised "boom") } = true ∧
    (websocket_endpoint
        { acceptError := none, connectError := none,
          firstDone := FirstDone.twilioFirst (PumpResult.raised "boom") }).errorLogged
      = none := by
  decide

/-- C8 (amended): no exception ever propagates out of the connection
handler, the speech-service client is released exactly when it was
acquired, the telephony socket is released on every path, and exceptions
of the accept and peer-connect steps are caught and logged by the
handler; a pump task's failure is merely absorbed by the race, without
reaching the handler's error log. -/
theorem c8_handler_never_propagates :
    ∀ sc : CoordScenario,
      (websocket_endpoint sc).propagated = none ∧
      (websocket_endpoint sc).clientReleaseCount
        = (if (websocket_endpoint sc).clientAcquired = true then 1 else 0) ∧
      (websocket_endpoint sc).websocketReleaseCount = 1 ∧
      (∀ e, sc.acceptError = some e → (websocket_endpoint sc).errorLogged = some e) ∧
      (∀ e, sc.acceptError = none → sc.connectError = some e →
          (websocket_endpoint sc).errorLogged = some e) := by
  intro sc
  obtain ⟨oa, oc, fd⟩ := sc
  cases oa <;> cases oc <;>
    exact ⟨rfl, rfl, rfl, fun e he => by simp_all [websocket_endpoint],
      fun e ha hc => by simp_all [websocket_endpoint]⟩

/-- Witness for C8 at a failing accept step. -/
theorem c8_handler_never_propagates_witness :
    (websocket_endpoint
        { acceptError := some "accept failed", connectError := none,
          firstDone := FirstDone.phonicFirst PumpResult.completed }).propagated = none ∧
    (websocket_endpoint
        { acceptError := some "accept failed", connectError := none,
          firstDone := FirstDone.phonicFirst PumpResult.completed }).errorLogged
      = some "accept failed" :=
  ⟨(c8_handler_never_propagates
      { acceptError := some "accept failed", connectError := none,
        firstDone := FirstDone.phonicFirst PumpResult.completed }).1,
   (c8_handler_never_propagates
      { acceptError := some "accept failed", connectError := none,
        firstDone := FirstDone.phonicFirst PumpResult.completed }).2.2.2.1
     "accept failed" rfl⟩

/-- C9: whenever the race is reached and either pump's task finishes
first — normally or by raising — the coordinator cancels the other task
without awaiting the cancellation, and each peer resource is released
exactly once. -/
theorem c9_race_cancels_and_releases_once :
    ∀ sc : CoordScenario,
      sc.acceptError = none → sc.connectError = none →
      (websocket_endpoint sc).otherTaskCancelled = true ∧
      (websocket_endpoint sc).clientReleaseCount = 1 ∧
      (websocket_endpoint sc).websocketReleaseCount = 1 ∧
      (websocket_endpoint sc).awaitedCancellation = false := by
  intro sc ha hc
  obtain ⟨oa, oc, fd⟩ := sc
  cases oa with
  | none =>
    cases oc with
    | none => exact ⟨rfl, rfl, rfl, rfl⟩
    | some c => exact Option.noConfusion hc
  | some a => exact Option.noConfusion ha

/-- Witness for C9 at a run whose telephony pump fails first. -/
theorem c9_race_cancels_and_releases_once_witness :
    (websocket_endpoint
        { acceptError := none, connectError := none,
          firstDone := FirstDone.twilioFirst (PumpResult.raised "io error") }).otherTaskCancelled
      = true ∧
    (websocket_endpoint
        { acceptError := none, connectError := none,
          firstDone := FirstDone.twilioFirst (PumpResult.raised "io error") }).clientReleaseCount
      = 1 :=
  ⟨(c9_race_cancels_and_releases_once
      { acceptError := none, connectError := none,
        firstDone := FirstDone.twilioFirst (PumpResult.raised "io error") } rfl rfl).1,
   (c9_race_cancels_and_releases_once
      { acceptError := none, connectError := none,
        firstDone := FirstDone.twilioFirst (PumpResult.raised "io error") } rfl rfl).2.1⟩

/-- C10: starting from the empty buffer, after processing any sequence of
service messages the text buffer contains no sentence-terminating
punctuation — the buffer is cleared in the very step that would make one
appear. -/
theorem c10_buffer_never_holds_punctuation :
    ∀ (msgs : List PhonicMessage) (sh : SharedState) (outs : List TwilioOut)
      (lgs : List LogEvent),
      containsSentencePunc (runPhonic msgs
        { text_buffer := "", shared := sh, outbound := outs, logs := lgs }).text_buffer
        = false :=
  fun msgs sh outs lgs =>
    runPhonic_noPunc msgs { text_buffer := "", shared := sh, outbound := outs, logs := lgs }
      rfl

end TwilioBridge
